import Mathlib

/-!
Shallow embedding of the rk-gin interceptor packages:
`rkginmetrics` (src/interceptor/metrics/prom/interceptor.go),
`rkgintrace` (src/interceptor/tracing/telemetry/options.go),
`rkginpanic` (src/interceptor/panic/interceptor.go) and the
request-context getters of `rkginctx` (whose implementation file is not in
the source tree; only its test file is, so those getters are modelled from
the specification, constrained by the assertions of the test file).

Go maps keyed by strings are embedded as association lists with
first-match lookup; pointer identity of heap-allocated objects is made
explicit through an allocation counter threaded through each constructor.
-/

/-- First-match lookup in an association list, embedding a Go map read. -/
def lookupStr {α : Type} : List (String × α) → String → Option α
  | [], _ => none
  | (k, v) :: rest, key => if k = key then some v else lookupStr rest key

/-- Embedding of Go strings.HasPrefix via the character lists. -/
def charsHaveLead : List Char → List Char → Bool
  | _, [] => true
  | [], _ :: _ => false
  | a :: as, b :: bs => a = b && charsHaveLead as bs

/-- strings.HasPrefix s pre: s starts with pre. -/
def goHasLead (s lead : String) : Bool :=
  charsHaveLead s.data lead.data

/-- strconv.Itoa on the (integer) response status. -/
def goItoa (i : Int) : String := toString i

namespace RkGinMetrics

/-- Modelled from the spec: the deterministic fallback default entry name
`rkginbasic.RkEntryNameValue` (package interceptor/basic is not in the
source tree); a fixed non-empty constant. -/
def RkEntryNameValue : String := "ginEntryDefault"

/-- Modelled from the spec: the fallback default entry type
`rkginbasic.RkEntryTypeValue`; a fixed constant. -/
def RkEntryTypeValue : String := "gin"

/-- Modelled from the spec: the context key `rkginbasic.RkEntryNameKey`
under which interceptors store the entry name in the request context. -/
def RkEntryNameKey : String := "ginEntryName"

/-- DefaultLabelKeys of src/interceptor/metrics/prom/interceptor.go. -/
def DefaultLabelKeys : List String :=
  ["entryName", "entryType", "realm", "region", "az", "domain",
   "instance", "appVersion", "appName", "restMethod", "restPath",
   "type", "resCode"]

/-- Metric name constant ElapsedNano. -/
def ElapsedNano : String := "elapsedNano"

/-- Metric name constant Errors. -/
def Errors : String := "errors"

/-- Metric name constant ResCode. -/
def ResCode : String := "resCode"

/-- Sentinel label value. -/
def unknown : String := "unknown"

/-- A prometheus.Registerer reference (default registerer or another). -/
inductive Registerer
  | default
  | custom (id : Nat)
deriving DecidableEq, Repr

/-- An rkprom.MetricsSet: allocation identity, namespace (app name),
subsystem (entry name) and the names of registered instruments. -/
structure MetricsSet where
  allocId : Nat
  nspace : String
  subsystem : String
  summaries : List String
  counters : List String
deriving DecidableEq, Repr

/-- The optionSet struct of the metrics interceptor package. -/
structure OptionSetM where
  allocId : Nat
  entryName : String
  entryType : String
  registerer : Option Registerer
  metricsSet : Option MetricsSet
deriving DecidableEq, Repr

/-- The Option functional arguments of the metrics interceptor factory. -/
inductive OptM
  | withEntryNameAndType (name ty : String)
  | withRegisterer (r : Option Registerer)
deriving DecidableEq, Repr

/-- WithEntryNameAndType / WithRegisterer applied to an optionSet:
names are taken only when non-empty, registerers only when non-nil. -/
def applyOptM (set : OptionSetM) : OptM → OptionSetM
  | .withEntryNameAndType n t =>
      let set := if n.length > 0 then { set with entryName := n } else set
      if t.length > 0 then { set with entryType := t } else set
  | .withRegisterer r =>
      if r.isSome then { set with registerer := r } else set

/-- Process-wide deployment facts read by the package
(rkginbasic globals and rkentry.GlobalAppCtx app info). -/
structure PromEnv where
  realm : String
  region : String
  az : String
  domain : String
  localHostname : String
  appVersion : String
  appName : String
deriving DecidableEq, Repr

/-- Process-wide state of the package: the optionsMap registry and the
allocation counter for fresh heap objects. -/
structure PromState where
  optionsMap : List (String × OptionSetM)
  nextAlloc : Nat
deriving DecidableEq, Repr

/-- The empty initial state. -/
def promState0 : PromState := { optionsMap := [], nextAlloc := 0 }

/-- initMetrics: registers the summary ElapsedNano and the counters
Errors and ResCode into the metrics set of the option set. -/
def initMetrics (set : OptionSetM) : OptionSetM :=
  match set.metricsSet with
  | some ms =>
      let ms2 := { ms with summaries := [ElapsedNano], counters := [Errors, ResCode] }
      { set with metricsSet := some ms2 }
  | none => set

/-- The optionSet value MetricsPromInterceptor builds before touching the
registry: defaults, then the options, then the MetricsSet allocation with
the defensive reset of an empty entry name or nil registerer. `aid` is
the allocation id for the optionSet; the fresh MetricsSet gets `aid + 1`. -/
def buildOptionSetM (env : PromEnv) (opts : List OptM) (aid : Nat) : OptionSetM :=
  let set0 : OptionSetM :=
    { allocId := aid
      entryName := RkEntryNameValue
      entryType := RkEntryTypeValue
      registerer := some .default
      metricsSet := none }
  let set1 := opts.foldl applyOptM set0
  let freshSet : String → MetricsSet := fun sub =>
    { allocId := aid + 1, nspace := env.appName, subsystem := sub,
      summaries := [], counters := [] }
  if set1.entryName.length > 0 ∧ set1.registerer.isSome then
    { set1 with metricsSet := some (freshSet set1.entryName) }
  else
    { set1 with entryName := RkEntryNameValue, registerer := some Registerer.default,
                metricsSet := some (freshSet RkEntryNameValue) }

/-- MetricsPromInterceptor, construction part: builds the optionSet and
inserts it into optionsMap (running initMetrics) only when the entry name
is not yet present. Returns the constructed set (as mutated through its
pointer) and the new process state; the returned gin handler itself is
modelled separately by `metricsHandlerPost`. -/
def MetricsPromInterceptor (env : PromEnv) (opts : List OptM) (st : PromState) :
    OptionSetM × PromState :=
  let set2 := buildOptionSetM env opts st.nextAlloc
  match lookupStr st.optionsMap set2.entryName with
  | some _ =>
      (set2, { optionsMap := st.optionsMap, nextAlloc := st.nextAlloc + 2 })
  | none =>
      let setR := initMetrics set2
      (setR,
        { optionsMap := (set2.entryName, setR) :: st.optionsMap,
          nextAlloc := st.nextAlloc + 2 })

/-- url.URL, path component only. -/
structure GoURL where
  path : String
deriving DecidableEq, Repr

/-- http.Request as read by the package. -/
structure GinRequest where
  requestURI : String
  method : String
  url : Option GoURL
deriving DecidableEq, Repr

/-- gin.ResponseWriter as read by the package (Status only). -/
structure GinWriter where
  status : Int
deriving DecidableEq, Repr

/-- gin.Context as read by the package: the request, the writer, the
string-valued context keys and the collected handler errors. -/
structure GinContext where
  request : Option GinRequest
  writer : Option GinWriter
  keys : List (String × String)
  errors : List String
deriving DecidableEq, Repr

/-- ctx.GetString: empty string when absent. -/
def ctxGetString (c : GinContext) (key : String) : String :=
  (lookupStr c.keys key).getD ""

/-- GetOptionSet: nil on nil context, else optionsMap lookup keyed by the
entry name stored in the request context. -/
def GetOptionSet (st : PromState) (ctx : Option GinContext) : Option OptionSetM :=
  match ctx with
  | none => none
  | some c => lookupStr st.optionsMap (ctxGetString c RkEntryNameKey)

/-- GetServerMetricsSet: the metrics set of the resolved option set. -/
def GetServerMetricsSet (st : PromState) (ctx : Option GinContext) :
    Option MetricsSet :=
  match GetOptionSet st ctx with
  | some set => set.metricsSet
  | none => none

/-- getValues: the 13 label values, defaulting to the sentinel. -/
def getValues (env : PromEnv) (st : PromState) (ctx : Option GinContext) :
    List String :=
  let method :=
    match ctx with
    | some c => match c.request with
                | some r => r.method
                | none => unknown
    | none => unknown
  let path :=
    match ctx with
    | some c => match c.request with
                | some r => match r.url with
                            | some u => u.path
                            | none => unknown
                | none => unknown
    | none => unknown
  let resCode :=
    match ctx with
    | some c => match c.request with
                | some _ => match c.writer with
                            | some w => goItoa w.status
                            | none => unknown
                | none => unknown
    | none => unknown
  let entryName :=
    match GetOptionSet st ctx with
    | some set => set.entryName
    | none => unknown
  let entryType :=
    match GetOptionSet st ctx with
    | some set => set.entryType
    | none => unknown
  [entryName, entryType, env.realm, env.region, env.az, env.domain,
   env.localHostname, env.appVersion, env.appName, method, path,
   "ginServer", resCode]

/-- An instrument handle: the metrics set it belongs to and the label
values it was resolved with. -/
structure Instrument where
  msAllocId : Nat
  labels : List String
deriving DecidableEq, Repr

/-- GetServerDurationMetrics: the ElapsedNano summary observer, nil when
the option set or its registered summary is missing. -/
def GetServerDurationMetrics (env : PromEnv) (st : PromState)
    (ctx : Option GinContext) : Option Instrument :=
  match GetServerMetricsSet st ctx with
  | some ms =>
      if ms.summaries.contains ElapsedNano then
        some { msAllocId := ms.allocId, labels := getValues env st ctx }
      else none
  | none => none

/-- GetServerErrorMetrics: the Errors counter, nil on nil context or when
the option set or the registered counter is missing. -/
def GetServerErrorMetrics (env : PromEnv) (st : PromState)
    (ctx : Option GinContext) : Option Instrument :=
  match ctx with
  | none => none
  | some _ =>
      match GetServerMetricsSet st ctx with
      | some ms =>
          if ms.counters.contains Errors then
            some { msAllocId := ms.allocId, labels := getValues env st ctx }
          else none
      | none => none

/-- GetServerResCodeMetrics: the ResCode counter, nil on nil context or
when the option set or the registered counter is missing. -/
def GetServerResCodeMetrics (env : PromEnv) (st : PromState)
    (ctx : Option GinContext) : Option Instrument :=
  match ctx with
  | none => none
  | some _ =>
      match GetServerMetricsSet st ctx with
      | some ms =>
          if ms.counters.contains ResCode then
            some { msAllocId := ms.allocId, labels := getValues env st ctx }
          else none
      | none => none

/-- One observation recorded against an instrument of a metrics set. -/
inductive Observation
  | observeSummary (msAllocId : Nat) (name : String) (labels : List String)
      (value : Int)
  | incCounter (msAllocId : Nat) (name : String) (labels : List String)
deriving DecidableEq, Repr

/-- The post-ctx.Next() body of the handler returned by
MetricsPromInterceptor: skips internal paths, otherwise observes latency,
increments the error counter when handler errors were recorded, and
increments the response-code counter; a nil instrument skips only that
observation. `none` embeds the nil-pointer fault of reading
ctx.Request.RequestURI on a nil request. -/
def metricsHandlerPost (env : PromEnv) (st : PromState) (ctx : GinContext)
    (elapsedNanos : Int) : Option (List Observation) :=
  match ctx.request with
  | none => none
  | some req =>
      if ¬ goHasLead req.requestURI "/rk/v1/assets" ∧
         ¬ goHasLead req.requestURI "/rk/v1/tv" ∧
         ¬ goHasLead req.requestURI "/sw/" then
        let durObs :=
          match GetServerDurationMetrics env st (some ctx) with
          | some inst => [Observation.observeSummary inst.msAllocId ElapsedNano
                            inst.labels elapsedNanos]
          | none => []
        let errObs :=
          if ctx.errors.length > 0 then
            match GetServerErrorMetrics env st (some ctx) with
            | some inst => [Observation.incCounter inst.msAllocId Errors inst.labels]
            | none => []
          else []
        let resObs :=
          match GetServerResCodeMetrics env st (some ctx) with
          | some inst => [Observation.incCounter inst.msAllocId ResCode inst.labels]
          | none => []
        some (durObs ++ errObs ++ resObs)
      else
        some []

/-- The metrics set an observation is recorded into. -/
def obsMsId : Observation → Nat
  | .observeSummary i _ _ _ => i
  | .incCounter i _ _ => i

/-- The number of summary observations with a given instrument name. -/
def countSummary (obs : List Observation) (name : String) : Nat :=
  obs.countP (fun o =>
    match o with
    | .observeSummary _ n _ _ => n = name
    | _ => false)

/-- The number of counter increments with a given instrument name. -/
def countCounter (obs : List Observation) (name : String) : Nat :=
  obs.countP (fun o =>
    match o with
    | .incCounter _ n _ => n = name
    | _ => false)

/-- A sequence of interceptor constructions folded over the process
state (each possibly with its own options). -/
def runConstructions (env : PromEnv) (optsList : List (List OptM))
    (st : PromState) : PromState :=
  optsList.foldl (fun s opts => (MetricsPromInterceptor env opts s).2) st

end RkGinMetrics

namespace RkGinTrace

/-- Modelled from the spec: the deterministic default entry name
`rkgininter.RpcEntryNameValue` (package interceptor is not in the source
tree); a fixed non-empty constant. -/
def RpcEntryNameValue : String := "ginRpcDefault"

/-- Modelled from the spec: the default entry type
`rkgininter.RpcEntryTypeValue`; a fixed constant. -/
def RpcEntryTypeValue : String := "gin"

/-- Modelled as the external constant contrib.SemVersion(). -/
def contribSemVersion : String := "semver:0.20.0"

/-- An sdktrace.SpanExporter: the NoopExporter of the package or another one. -/
inductive Exporter
  | noop
  | custom (id : Nat)
deriving DecidableEq, Repr

/-- An sdktrace.SpanProcessor: a batch processor wrapping an exporter, or
another one. -/
inductive Processor
  | batch (e : Exporter)
  | custom (id : Nat)
deriving DecidableEq, Repr

/-- A sampling policy. -/
inductive Sampler
  | alwaysSample
  | custom (id : Nat)
deriving DecidableEq, Repr

/-- An sdktrace.TracerProvider: one built by the SDK with a sampler, span
processor and resource attributes, or an externally supplied one. -/
inductive Provider
  | sdk (sampler : Sampler) (proc : Processor) (resource : List (String × String))
  | custom (id : Nat)
deriving DecidableEq, Repr

/-- An oteltrace.Tracer as produced by Provider.Tracer(name, version). -/
structure Tracer where
  provider : Provider
  name : String
  instrumentationVersion : String
deriving DecidableEq, Repr

/-- A propagation.TextMapPropagator field of the composite. -/
inductive PropField
  | traceContext
  | baggage
deriving DecidableEq, Repr

/-- A propagation.TextMapPropagator: the composite of fields, or another. -/
inductive Propagator
  | composite (fields : List PropField)
  | custom (id : Nat)
deriving DecidableEq, Repr

/-- The optionSet struct of the tracing telemetry package. -/
structure OptionSetT where
  allocId : Nat
  entryName : String
  entryType : String
  exporter : Option Exporter
  processor : Option Processor
  provider : Option Provider
  propagator : Option Propagator
  tracer : Option Tracer
deriving DecidableEq, Repr

/-- The Option functional arguments of newOptionSet. -/
inductive OptT
  | withExporter (e : Option Exporter)
  | withSpanProcessor (p : Option Processor)
  | withTracerProvider (p : Option Provider)
  | withPropagator (p : Option Propagator)
  | withEntryNameAndType (name ty : String)
deriving DecidableEq, Repr

/-- The With... option functions applied to an optionSet. Exporters,
processors, providers and propagators are taken only when non-nil;
WithEntryNameAndType assigns both fields unconditionally. -/
def applyOptT (set : OptionSetT) : OptT → OptionSetT
  | .withExporter e => if e.isSome then { set with exporter := e } else set
  | .withSpanProcessor p => if p.isSome then { set with processor := p } else set
  | .withTracerProvider p => if p.isSome then { set with provider := p } else set
  | .withPropagator p => if p.isSome then { set with propagator := p } else set
  | .withEntryNameAndType n t => { set with entryName := n, entryType := t }

/-- App info read from rkentry.GlobalAppCtx.GetAppInfoEntry(). -/
structure AppInfo where
  appName : String
  version : String
deriving DecidableEq, Repr

/-- Process-wide state of the tracing package: optionsMap and the
allocation counter for fresh option sets. -/
structure TraceState where
  optionsMap : List (String × OptionSetT)
  nextAlloc : Nat
deriving DecidableEq, Repr

/-- The empty initial state. -/
def traceState0 : TraceState := { optionsMap := [], nextAlloc := 0 }

/-- The optionSet value newOptionSet builds before touching the registry:
defaults, then the options, then the default
exporter/processor/provider/tracer/propagator fill-ins. `aid` is the
allocation id of the fresh set. -/
def buildOptionSetT (env : AppInfo) (opts : List OptT) (aid : Nat) : OptionSetT :=
  let set0 : OptionSetT :=
    { allocId := aid
      entryName := RpcEntryNameValue
      entryType := RpcEntryTypeValue
      exporter := none
      processor := none
      provider := none
      propagator := none
      tracer := none }
  let set1 := opts.foldl applyOptT set0
  let set2 :=
    if set1.exporter.isSome then set1
    else { set1 with exporter := some Exporter.noop }
  let set3 :=
    if set2.processor.isSome then set2
    else { set2 with processor := some (Processor.batch (set2.exporter.getD Exporter.noop)) }
  let defProvider : Provider :=
    Provider.sdk Sampler.alwaysSample (set3.processor.getD (Processor.batch Exporter.noop))
      [("service.name", env.appName), ("service.version", env.version),
       ("service.entryName", set3.entryName), ("service.entryType", set3.entryType)]
  let set4 :=
    if set3.provider.isSome then set3
    else { set3 with provider := some defProvider }
  let theTracer : Tracer :=
    { provider := set4.provider.getD defProvider, name := set4.entryName,
      instrumentationVersion := contribSemVersion }
  let set5 := { set4 with tracer := some theTracer }
  if set5.propagator.isSome then set5
  else { set5 with propagator := some (Propagator.composite [PropField.traceContext, PropField.baggage]) }

/-- newOptionSet: builds a fresh optionSet (with default fill-ins),
inserts it into optionsMap only when the entry name is not yet present,
and returns the freshly built set together with the new process state. -/
def newOptionSet (env : AppInfo) (opts : List OptT) (st : TraceState) :
    OptionSetT × TraceState :=
  let set6 := buildOptionSetT env opts st.nextAlloc
  match lookupStr st.optionsMap set6.entryName with
  | some _ =>
      (set6, { optionsMap := st.optionsMap, nextAlloc := st.nextAlloc + 1 })
  | none =>
      (set6,
        { optionsMap := (set6.entryName, set6) :: st.optionsMap,
          nextAlloc := st.nextAlloc + 1 })

end RkGinTrace

namespace RkGinPanic

/-- The error payload of a structured error response, as in the external
rkerror package, modelled at its interface boundary: code, status,
message and details. -/
structure RkErrorBody where
  code : Int
  status : String
  message : String
  details : List String
deriving DecidableEq, Repr

/-- rkerror.ErrorResp: the structured error response wrapping its error
payload Err. -/
structure ErrorResp where
  err : RkErrorBody
deriving DecidableEq, Repr

/-- A Go error value, observed through its Error() string. -/
structure GoError where
  msg : String
deriving DecidableEq, Repr

/-- Modelled from the spec: rkerror.New(rkerror.WithMessage(msg))
synthesizes a structured error response carrying the message, with the
internal-server-error defaults. -/
def rkerrorNew (msg : String) : ErrorResp :=
  { err := { code := 500, status := "Internal Server Error", message := msg,
             details := [] } }

/-- Modelled from the spec: rkerror.FromError wraps a generic error value
into a structured error response carrying its message. -/
def FromError (e : GoError) : ErrorResp :=
  rkerrorNew e.msg

/-- A recovered panic value: a structured error response pointer, a value
implementing the error interface, or an arbitrary value observed through
its fmt %v rendering. -/
inductive PanicValue
  | errResp (e : ErrorResp)
  | goErr (e : GoError)
  | other (rendered : String)
deriving DecidableEq, Repr

/-- The type-switch of the deferred recovery block: *rkerror.ErrorResp is
used as-is, an error is wrapped via FromError, anything else is rendered
with fmt %v into a fresh structured error response. -/
def classifyRecovered : PanicValue → ErrorResp
  | .errResp e => e
  | .goErr e => FromError e
  | .other s => rkerrorNew s

/-- What the deferred recovery block does for one recovered value: the
side effects on the event and logger, and the response written. -/
structure RecoveryOutcome where
  statusCode : Int
  body : ErrorResp
  eventCounters : List (String × Int)
  eventErrs : List RkErrorBody
  loggedStackAtError : Bool
deriving DecidableEq, Repr

/-- The result of running a stage of the interceptor chain: a completed
response, or an unwound panic carrying the panic value. -/
inductive StageResult
  | completed (status : Int) (body : Option ErrorResp)
  | panicked (v : PanicValue)
deriving DecidableEq, Repr

/-- The panic interceptor around a downstream stage: a completed
downstream result passes through untouched; a downstream panic is
recovered, classified, recorded on the event (counter panic=1, the
resulting error appended), the stack logged at error severity, and an
HTTP 500 with the structured error response written. -/
def Interceptor (downstream : StageResult) : StageResult × Option RecoveryOutcome :=
  match downstream with
  | .completed s b => (.completed s b, none)
  | .panicked v =>
      let res := classifyRecovered v
      (.completed 500 (some res),
        some { statusCode := 500, body := res,
               eventCounters := [("panic", 1)],
               eventErrs := [res.err],
               loggedStackAtError := true })

end RkGinPanic

namespace RkGinCtx

/-- Modelled from the spec: the context keys used by the rkginctx
getters (package interceptor is not in the source tree). -/
def RpcEventKey : String := "rkRpcEvent"

/-- Modelled from the spec: context key for the logger. -/
def RpcLoggerKey : String := "rkRpcLogger"

/-- Modelled from the spec: context key for the span. -/
def RpcSpanKey : String := "rkRpcSpan"

/-- Modelled from the spec: context key for the tracer. -/
def RpcTracerKey : String := "rkRpcTracer"

/-- Modelled from the spec: context key for the tracer provider. -/
def RpcTracerProviderKey : String := "rkRpcTracerProvider"

/-- Modelled from the spec: context key for the propagator. -/
def RpcPropagatorKey : String := "rkRpcPropagator"

/-- Modelled from the spec: context key for the entry name. -/
def RpcEntryNameKey : String := "rkRpcEntryName"

/-- Modelled from the spec: response header key for the request id. -/
def RequestIdKey : String := "X-Request-Id"

/-- Modelled from the spec: response header key for the trace id. -/
def TraceIdKey : String := "X-Trace-Id"

/-- An event value: the package noopEvent or a real one. -/
inductive EventV
  | noop
  | real (id : Nat)
deriving DecidableEq, Repr

/-- A logger value: rklogger.NoopLogger or a real one. -/
inductive LoggerV
  | noop
  | real (id : Nat)
deriving DecidableEq, Repr

/-- A span value: a span of the no-op tracer provider or a real one. -/
inductive SpanV
  | noop
  | real (id : Nat)
deriving DecidableEq, Repr

/-- A tracer value: a tracer of the no-op tracer provider or a real one. -/
inductive TracerV
  | noop
  | real (id : Nat)
deriving DecidableEq, Repr

/-- A tracer provider value: the no-op provider or a real one. -/
inductive TracerProviderV
  | noop
  | real (id : Nat)
deriving DecidableEq, Repr

/-- A propagator value. -/
inductive PropagatorV
  | composite (id : Nat)
  | real (id : Nat)
deriving DecidableEq, Repr

/-- A value stored in the request context carrier. -/
inductive CtxValue
  | event (e : EventV)
  | logger (l : LoggerV)
  | span (s : SpanV)
  | tracer (t : TracerV)
  | provider (p : TracerProviderV)
  | propagator (p : PropagatorV)
  | str (s : String)
deriving DecidableEq, Repr

/-- The request context carrier as read by the getters: the typed keys
set by interceptors and the response writer header. -/
structure CtxCarrier where
  keys : List (String × CtxValue)
  writerHeader : List (String × String)
deriving DecidableEq, Repr

/-- Modelled from the spec: GetEvent returns the event stored under
RpcEventKey, and the package noopEvent when the context is nil or the
key is absent or of the wrong type (asserted by TestGetEvent). -/
def GetEvent (ctx : Option CtxCarrier) : EventV :=
  match ctx with
  | none => .noop
  | some c =>
      match lookupStr c.keys RpcEventKey with
      | some (.event e) => e
      | _ => .noop

/-- Modelled from the spec: GetLogger returns the logger stored under
RpcLoggerKey, and rklogger.NoopLogger when the context is nil or the key
is absent (asserted by TestGetLogger). -/
def GetLogger (ctx : Option CtxCarrier) : LoggerV :=
  match ctx with
  | none => .noop
  | some c =>
      match lookupStr c.keys RpcLoggerKey with
      | some (.logger l) => l
      | _ => .noop

/-- Modelled from the spec: GetRequestId reads the request id from the
response writer header, and returns the empty string when the context is
nil or the header is absent (asserted by TestGetRequestId). -/
def GetRequestId (ctx : Option CtxCarrier) : String :=
  match ctx with
  | none => ""
  | some c => (lookupStr c.writerHeader RequestIdKey).getD ""

/-- Modelled from the spec: GetTraceId reads the trace id from the
response writer header, and returns the empty string when the context is
nil or the header is absent (asserted by TestGetTraceId). -/
def GetTraceId (ctx : Option CtxCarrier) : String :=
  match ctx with
  | none => ""
  | some c => (lookupStr c.writerHeader TraceIdKey).getD ""

/-- Modelled from the spec: GetEntryName returns the entry name stored
under RpcEntryNameKey, and the empty string when the context is nil or
the key is absent (asserted by TestGetEntryName). -/
def GetEntryName (ctx : Option CtxCarrier) : String :=
  match ctx with
  | none => ""
  | some c =>
      match lookupStr c.keys RpcEntryNameKey with
      | some (.str s) => s
      | _ => ""

/-- Modelled from the spec: GetTraceSpan returns the span stored under
RpcSpanKey, and a non-nil no-op span when the context is nil or the key
is absent (asserted by TestGetTraceSpan). -/
def GetTraceSpan (ctx : Option CtxCarrier) : SpanV :=
  match ctx with
  | none => .noop
  | some c =>
      match lookupStr c.keys RpcSpanKey with
      | some (.span s) => s
      | _ => .noop

/-- Modelled from the spec: GetTracer returns the tracer stored under
RpcTracerKey, and a non-nil no-op tracer when the context is nil or the
key is absent (asserted by TestGetTracer). -/
def GetTracer (ctx : Option CtxCarrier) : TracerV :=
  match ctx with
  | none => .noop
  | some c =>
      match lookupStr c.keys RpcTracerKey with
      | some (.tracer t) => t
      | _ => .noop

/-- Modelled from the spec: GetTracerProvider returns the provider stored
under RpcTracerProviderKey, and the non-nil no-op provider when the
context is nil or the key is absent (asserted by TestGetTracerProvider). -/
def GetTracerProvider (ctx : Option CtxCarrier) : TracerProviderV :=
  match ctx with
  | none => .noop
  | some c =>
      match lookupStr c.keys RpcTracerProviderKey with
      | some (.provider p) => p
      | _ => .noop

/-- Modelled from the spec and the test of the package itself: GetTracerPropagator
returns the propagator stored under RpcPropagatorKey, and nil when the
context is nil or the key is absent — TestGetTracerPropagator asserts
assert.Nil for both the nil-context and the empty-context case. -/
def GetTracerPropagator (ctx : Option CtxCarrier) : Option PropagatorV :=
  match ctx with
  | none => none
  | some c =>
      match lookupStr c.keys RpcPropagatorKey with
      | some (.propagator p) => some p
      | _ => none

end RkGinCtx

section PanicTheorems

open RkGinPanic

/-- C2: For every panic value raised by a downstream stage (a structured
error response, a plain error value, or an arbitrary value), the
panic-recovery interceptor recovers it, writes an HTTP 500 response whose
body is a structured error response, and never propagates the panic
further; the recovery path is a total function of the recovered value, so
it never panics itself. -/
theorem panic_recovery_yields_500_never_propagates :
    ∀ v : PanicValue,
      (Interceptor (StageResult.panicked v)).1
        = StageResult.completed 500 (some (classifyRecovered v)) ∧
      ∀ w : PanicValue,
        (Interceptor (StageResult.panicked v)).1 ≠ StageResult.panicked w := by
  intro v
  refine ⟨rfl, ?_⟩
  intro w h
  simp [Interceptor] at h

/-- C6: On a recovered panic the interceptor classifies the recovered
value in three exhaustive cases (structured error response as-is, generic
error via FromError, anything else via rkerror.New on its string form),
and in every case sets the panic counter to 1 on the event, adds the
resulting error to the event, logs the stack trace at error severity and
writes the structured response with HTTP 500. -/
theorem panic_classification_and_event_recording :
    (∀ e : ErrorResp, classifyRecovered (PanicValue.errResp e) = e) ∧
    (∀ e : GoError, classifyRecovered (PanicValue.goErr e) = FromError e) ∧
    (∀ s : String, classifyRecovered (PanicValue.other s) = rkerrorNew s) ∧
    (∀ v : PanicValue,
      (Interceptor (StageResult.panicked v)).2
        = some { statusCode := 500, body := classifyRecovered v,
                 eventCounters := [("panic", 1)],
                 eventErrs := [(classifyRecovered v).err],
                 loggedStackAtError := true }) := by
  refine ⟨fun e => rfl, fun e => rfl, fun s => rfl, fun v => rfl⟩

end PanicTheorems

section CtxTheorems

open RkGinCtx

/-- C3 counterexample: the claim asserts a non-nil no-op propagator from
the propagator getter, but GetTracerPropagator returns nil both for a nil
request context and for a context with no propagator installed (exactly
what TestGetTracerPropagator of the package itself asserts). -/
theorem propagator_getter_returns_nil :
    GetTracerPropagator none = none ∧
    GetTracerPropagator (some { keys := [], writerHeader := [] }) = none := by
  exact ⟨rfl, rfl⟩

/-- C3 amended: for a nil request context, and for a request context in
which no interceptor stored anything, every getter returns a safe no-op
or empty value and never fails: event/logger/span/tracer/tracerProvider
yield the non-nil no-op implementations, entryName/requestId/traceId
yield the empty string, and the propagator getter yields nil (not a
non-nil no-op), which callers must treat as absence. -/
theorem ctx_getters_safe_defaults_amended :
    (GetEvent none = EventV.noop ∧ GetLogger none = LoggerV.noop ∧
     GetRequestId none = "" ∧ GetTraceId none = "" ∧ GetEntryName none = "" ∧
     GetTraceSpan none = SpanV.noop ∧ GetTracer none = TracerV.noop ∧
     GetTracerProvider none = TracerProviderV.noop ∧
     GetTracerPropagator none = none) ∧
    ∀ c : CtxCarrier, c.keys = [] → c.writerHeader = [] →
      (GetEvent (some c) = EventV.noop ∧ GetLogger (some c) = LoggerV.noop ∧
       GetRequestId (some c) = "" ∧ GetTraceId (some c) = "" ∧
       GetEntryName (some c) = "" ∧ GetTraceSpan (some c) = SpanV.noop ∧
       GetTracer (some c) = TracerV.noop ∧
       GetTracerProvider (some c) = TracerProviderV.noop ∧
       GetTracerPropagator (some c) = none) := by
  refine ⟨⟨rfl, rfl, rfl, rfl, rfl, rfl, rfl, rfl, rfl⟩, ?_⟩
  intro c hk hw
  simp [GetEvent, GetLogger, GetRequestId, GetTraceId, GetEntryName,
        GetTraceSpan, GetTracer, GetTracerProvider, GetTracerPropagator,
        hk, hw, lookupStr]

/-- C3 amended, witness at the empty request context. -/
theorem ctx_getters_safe_defaults_amended_witness :
    GetEvent (some { keys := [], writerHeader := [] }) = EventV.noop ∧
    GetTracerPropagator (some { keys := [], writerHeader := [] }) = none :=
  ⟨(ctx_getters_safe_defaults_amended.2 { keys := [], writerHeader := [] } rfl rfl).1,
   (ctx_getters_safe_defaults_amended.2 { keys := [], writerHeader := [] } rfl rfl).2.2.2.2.2.2.2.2⟩

end CtxTheorems

section MetricsLemmas

open RkGinMetrics

theorem stringLengthPos_ne_empty (m : String) (hm : m.length > 0) : m ≠ "" := by
  intro he
  simp [he] at hm

theorem applyOptM_allocId (s : OptionSetM) (o : OptM) :
    (applyOptM s o).allocId = s.allocId := by
  cases o <;> simp only [applyOptM] <;> split_ifs <;> rfl

theorem foldl_applyOptM_allocId (opts : List OptM) :
    ∀ s : OptionSetM, (opts.foldl applyOptM s).allocId = s.allocId := by
  induction opts with
  | nil => intro s; rfl
  | cons o rest ih => intro s; rw [List.foldl_cons, ih, applyOptM_allocId]

theorem buildOptionSetM_allocId (env : PromEnv) (opts : List OptM) (aid : Nat) :
    (buildOptionSetM env opts aid).allocId = aid := by
  simp only [buildOptionSetM]
  split_ifs <;> simp [foldl_applyOptM_allocId]

theorem initMetrics_allocId (s : OptionSetM) : (initMetrics s).allocId = s.allocId := by
  unfold initMetrics
  split <;> rfl

theorem initMetrics_entryName (s : OptionSetM) :
    (initMetrics s).entryName = s.entryName := by
  unfold initMetrics
  split <;> rfl

theorem MetricsPromInterceptor_fst_entryName (env : PromEnv) (opts : List OptM)
    (st : PromState) :
    (MetricsPromInterceptor env opts st).1.entryName
      = (buildOptionSetM env opts st.nextAlloc).entryName := by
  simp only [MetricsPromInterceptor]
  split <;> simp [initMetrics_entryName]

theorem MetricsPromInterceptor_fst_allocId (env : PromEnv) (opts : List OptM)
    (st : PromState) :
    (MetricsPromInterceptor env opts st).1.allocId = st.nextAlloc := by
  simp only [MetricsPromInterceptor]
  split <;> simp [initMetrics_allocId, buildOptionSetM_allocId]

theorem MetricsPromInterceptor_snd_nextAlloc (env : PromEnv) (opts : List OptM)
    (st : PromState) :
    (MetricsPromInterceptor env opts st).2.nextAlloc = st.nextAlloc + 2 := by
  simp only [MetricsPromInterceptor]
  split <;> rfl

theorem MetricsPromInterceptor_lookup_self (env : PromEnv) (opts : List OptM)
    (st : PromState) :
    (lookupStr (MetricsPromInterceptor env opts st).2.optionsMap
      (MetricsPromInterceptor env opts st).1.entryName).isSome := by
  simp only [MetricsPromInterceptor]
  split
  next v hsome => simp [hsome]
  next hnone => simp [lookupStr, initMetrics_entryName]

theorem MetricsPromInterceptor_preserves (env : PromEnv) (opts : List OptM)
    (st : PromState) (n : String) (s : OptionSetM)
    (h : lookupStr st.optionsMap n = some s) :
    lookupStr (MetricsPromInterceptor env opts st).2.optionsMap n = some s := by
  simp only [MetricsPromInterceptor]
  split
  next => simpa using h
  next hnone =>
    simp only [lookupStr]
    have hne : ¬ (buildOptionSetM env opts st.nextAlloc).entryName = n := by
      intro he
      rw [he, h] at hnone
      cases hnone
    rw [if_neg hne]
    exact h

theorem MetricsPromInterceptor_unchanged (env : PromEnv) (opts : List OptM)
    (st : PromState)
    (h : (lookupStr st.optionsMap (buildOptionSetM env opts st.nextAlloc).entryName).isSome) :
    (MetricsPromInterceptor env opts st).2.optionsMap = st.optionsMap := by
  simp only [MetricsPromInterceptor]
  split
  next => rfl
  next hnone => rw [hnone] at h; cases h

theorem applyOptM_entryName_ne (s : OptionSetM) (o : OptM) (h : s.entryName ≠ "") :
    (applyOptM s o).entryName ≠ "" := by
  cases o with
  | withEntryNameAndType n t =>
      simp only [applyOptM]
      by_cases hn : n.length > 0
      · by_cases ht : t.length > 0 <;>
          simp [hn, ht] <;> exact stringLengthPos_ne_empty n hn
      · by_cases ht : t.length > 0 <;> simp [hn, ht] <;> exact h
  | withRegisterer r =>
      simp only [applyOptM]
      split_ifs <;> exact h

theorem foldl_applyOptM_entryName_ne (opts : List OptM) :
    ∀ s : OptionSetM, s.entryName ≠ "" → (opts.foldl applyOptM s).entryName ≠ "" := by
  induction opts with
  | nil => intro s h; exact h
  | cons o rest ih =>
      intro s h
      rw [List.foldl_cons]
      exact ih _ (applyOptM_entryName_ne s o h)

theorem buildOptionSetM_entryName_ne (env : PromEnv) (opts : List OptM) (aid : Nat) :
    (buildOptionSetM env opts aid).entryName ≠ "" := by
  have h0 : RkEntryNameValue ≠ "" := by decide
  simp only [buildOptionSetM]
  split_ifs with hcond
  · have := foldl_applyOptM_entryName_ne opts
      ⟨aid, RkEntryNameValue, RkEntryTypeValue, some Registerer.default, none⟩ h0
    simpa using this
  · simpa using h0

end MetricsLemmas

section TraceLemmas

open RkGinTrace

theorem applyOptT_allocId (s : OptionSetT) (o : OptT) :
    (applyOptT s o).allocId = s.allocId := by
  cases o <;> simp only [applyOptT] <;> split_ifs <;> rfl

theorem foldl_applyOptT_allocId (opts : List OptT) :
    ∀ s : OptionSetT, (opts.foldl applyOptT s).allocId = s.allocId := by
  induction opts with
  | nil => intro s; rfl
  | cons o rest ih => intro s; rw [List.foldl_cons, ih, applyOptT_allocId]

theorem buildOptionSetT_allocId (env : AppInfo) (opts : List OptT) (aid : Nat) :
    (buildOptionSetT env opts aid).allocId = aid := by
  simp only [buildOptionSetT]
  split_ifs <;> simp [foldl_applyOptT_allocId]

theorem newOptionSet_fst (env : AppInfo) (opts : List OptT) (st : TraceState) :
    (newOptionSet env opts st).1 = buildOptionSetT env opts st.nextAlloc := by
  simp only [newOptionSet]
  split <;> rfl

theorem newOptionSet_snd_nextAlloc (env : AppInfo) (opts : List OptT)
    (st : TraceState) :
    (newOptionSet env opts st).2.nextAlloc = st.nextAlloc + 1 := by
  simp only [newOptionSet]
  split <;> rfl

theorem newOptionSet_lookup_self (env : AppInfo) (opts : List OptT)
    (st : TraceState) :
    (lookupStr (newOptionSet env opts st).2.optionsMap
      (newOptionSet env opts st).1.entryName).isSome := by
  simp only [newOptionSet]
  split
  next v hsome => simp [hsome]
  next hnone => simp [lookupStr]

theorem newOptionSet_unchanged (env : AppInfo) (opts : List OptT) (st : TraceState)
    (h : (lookupStr st.optionsMap (buildOptionSetT env opts st.nextAlloc).entryName).isSome) :
    (newOptionSet env opts st).2.optionsMap = st.optionsMap := by
  simp only [newOptionSet]
  split
  next => rfl
  next hnone => rw [hnone] at h; cases h

theorem newOptionSet_inserts_if_absent (env : AppInfo) (opts : List OptT)
    (st : TraceState)
    (h : lookupStr st.optionsMap (buildOptionSetT env opts st.nextAlloc).entryName = none) :
    lookupStr (newOptionSet env opts st).2.optionsMap
        (newOptionSet env opts st).1.entryName
      = some (buildOptionSetT env opts st.nextAlloc) := by
  simp only [newOptionSet]
  split
  next v hsome => rw [hsome] at h; cases h
  next hnone => simp [lookupStr]

theorem applyOptT_entryName_of_not_nameOpt (s : OptionSetT) (o : OptT)
    (h : ∀ n t, o ≠ OptT.withEntryNameAndType n t) :
    (applyOptT s o).entryName = s.entryName := by
  cases o with
  | withExporter e => simp only [applyOptT]; split_ifs <;> rfl
  | withSpanProcessor p => simp only [applyOptT]; split_ifs <;> rfl
  | withTracerProvider p => simp only [applyOptT]; split_ifs <;> rfl
  | withPropagator p => simp only [applyOptT]; split_ifs <;> rfl
  | withEntryNameAndType n t => exact absurd rfl (h n t)

theorem applyOptT_nameOnly_fields (s : OptionSetT) (n t : String) :
    (applyOptT s (OptT.withEntryNameAndType n t)).exporter = s.exporter ∧
    (applyOptT s (OptT.withEntryNameAndType n t)).processor = s.processor ∧
    (applyOptT s (OptT.withEntryNameAndType n t)).provider = s.provider ∧
    (applyOptT s (OptT.withEntryNameAndType n t)).propagator = s.propagator := by
  simp [applyOptT]

theorem foldl_applyOptT_nameOnly_fields (opts : List OptT)
    (hopts : ∀ o ∈ opts, ∃ n t, o = OptT.withEntryNameAndType n t) :
    ∀ s : OptionSetT,
      (opts.foldl applyOptT s).exporter = s.exporter ∧
      (opts.foldl applyOptT s).processor = s.processor ∧
      (opts.foldl applyOptT s).provider = s.provider ∧
      (opts.foldl applyOptT s).propagator = s.propagator := by
  induction opts with
  | nil => intro s; exact ⟨rfl, rfl, rfl, rfl⟩
  | cons o rest ih =>
      intro s
      obtain ⟨n, t, rfl⟩ := hopts o (List.mem_cons_self o rest)
      have hrest : ∀ o ∈ rest, ∃ n t, o = OptT.withEntryNameAndType n t :=
        fun o ho => hopts o (List.mem_cons_of_mem _ ho)
      rw [List.foldl_cons]
      obtain ⟨h1, h2, h3, h4⟩ := ih hrest (applyOptT s (OptT.withEntryNameAndType n t))
      obtain ⟨g1, g2, g3, g4⟩ := applyOptT_nameOnly_fields s n t
      exact ⟨h1.trans g1, h2.trans g2, h3.trans g3, h4.trans g4⟩

theorem foldl_applyOptT_entryName_of_no_nameOpt (opts : List OptT)
    (hopts : ∀ o ∈ opts, ∀ n t, o ≠ OptT.withEntryNameAndType n t) :
    ∀ s : OptionSetT, (opts.foldl applyOptT s).entryName = s.entryName := by
  induction opts with
  | nil => intro s; rfl
  | cons o rest ih =>
      intro s
      have hrest : ∀ o ∈ rest, ∀ n t, o ≠ OptT.withEntryNameAndType n t :=
        fun o ho => hopts o (List.mem_cons_of_mem _ ho)
      rw [List.foldl_cons, ih hrest,
        applyOptT_entryName_of_not_nameOpt s o (hopts o (List.mem_cons_self o rest))]

end TraceLemmas

section TraceDefaultsTheorem

open RkGinTrace

/-- C9: a tracing option-set construction that supplies no explicit
exporter, processor, provider or propagator (only entry name/type
options) defaults the exporter to the no-op exporter, the processor to a
batch span processor wrapping that exporter, the provider to one with the
always-sample policy and exactly the four resource attributes
service.name, service.version, service.entryName and service.entryType,
obtains the tracer from that provider, and defaults the propagator to the
composite of the W3C trace-context and baggage propagators. -/
theorem tracing_default_option_set (env : AppInfo) (opts : List OptT)
    (st : TraceState)
    (hopts : ∀ o ∈ opts, ∃ n t, o = OptT.withEntryNameAndType n t) :
    (newOptionSet env opts st).1.exporter = some Exporter.noop ∧
    (newOptionSet env opts st).1.processor
      = some (Processor.batch Exporter.noop) ∧
    (newOptionSet env opts st).1.provider
      = some (Provider.sdk Sampler.alwaysSample (Processor.batch Exporter.noop)
          [("service.name", env.appName), ("service.version", env.version),
           ("service.entryName", (newOptionSet env opts st).1.entryName),
           ("service.entryType", (newOptionSet env opts st).1.entryType)]) ∧
    (newOptionSet env opts st).1.tracer
      = some { provider :=
                 Provider.sdk Sampler.alwaysSample (Processor.batch Exporter.noop)
                   [("service.name", env.appName), ("service.version", env.version),
                    ("service.entryName", (newOptionSet env opts st).1.entryName),
                    ("service.entryType", (newOptionSet env opts st).1.entryType)],
               name := (newOptionSet env opts st).1.entryName,
               instrumentationVersion := contribSemVersion } ∧
    (newOptionSet env opts st).1.propagator
      = some (Propagator.composite [PropField.traceContext, PropField.baggage]) := by
  rw [newOptionSet_fst]
  obtain ⟨he, hp, hv, hg⟩ := foldl_applyOptT_nameOnly_fields opts hopts
    { allocId := st.nextAlloc, entryName := RpcEntryNameValue,
      entryType := RpcEntryTypeValue, exporter := none, processor := none,
      provider := none, propagator := none, tracer := none }
  simp only [buildOptionSetT]
  simp [he, hp, hv, hg]

/-- C9, witness: a concrete construction supplying only the entry name
and type exhibits all five defaults. -/
theorem tracing_default_option_set_witness :
    (newOptionSet { appName := "app", version := "v" }
        [OptT.withEntryNameAndType "a" "T"] traceState0).1.exporter
      = some Exporter.noop ∧
    (newOptionSet { appName := "app", version := "v" }
        [OptT.withEntryNameAndType "a" "T"] traceState0).1.propagator
      = some (Propagator.composite [PropField.traceContext, PropField.baggage]) :=
  ⟨(tracing_default_option_set { appName := "app", version := "v" }
      [OptT.withEntryNameAndType "a" "T"] traceState0
      (fun o ho => ⟨"a", "T", by simpa using ho⟩)).1,
   (tracing_default_option_set { appName := "app", version := "v" }
      [OptT.withEntryNameAndType "a" "T"] traceState0
      (fun o ho => ⟨"a", "T", by simpa using ho⟩)).2.2.2.2⟩

end TraceDefaultsTheorem

section RegistryTheorems

open RkGinTrace RkGinMetrics

theorem buildOptionSetT_entryName (env : AppInfo) (opts : List OptT) (aid : Nat) :
    (buildOptionSetT env opts aid).entryName
      = (opts.foldl applyOptT
          { allocId := aid, entryName := RpcEntryNameValue,
            entryType := RpcEntryTypeValue, exporter := none, processor := none,
            provider := none, propagator := none, tracer := none }).entryName := by
  simp only [buildOptionSetT]
  split_ifs <;> rfl

/-- C1 counterexample: two tracing option-set constructions with the same
entry name. The second call does not return the registry entry: it
returns a freshly allocated option set built from the very
constructor arguments (entry type T2), while the registry keeps the
first-constructed set unchanged. -/
theorem newOptionSet_second_call_returns_fresh_set :
    (newOptionSet { appName := "app", version := "v" }
        [OptT.withEntryNameAndType "a" "T2"]
        (newOptionSet { appName := "app", version := "v" }
          [OptT.withEntryNameAndType "a" "T1"] traceState0).2).1
      ≠ (newOptionSet { appName := "app", version := "v" }
          [OptT.withEntryNameAndType "a" "T1"] traceState0).1 ∧
    (newOptionSet { appName := "app", version := "v" }
        [OptT.withEntryNameAndType "a" "T2"]
        (newOptionSet { appName := "app", version := "v" }
          [OptT.withEntryNameAndType "a" "T1"] traceState0).2).1.entryType = "T2" ∧
    lookupStr (newOptionSet { appName := "app", version := "v" }
        [OptT.withEntryNameAndType "a" "T2"]
        (newOptionSet { appName := "app", version := "v" }
          [OptT.withEntryNameAndType "a" "T1"] traceState0).2).2.optionsMap "a"
      = some (newOptionSet { appName := "app", version := "v" }
          [OptT.withEntryNameAndType "a" "T1"] traceState0).1 := by
  refine ⟨by decide, by decide, by decide⟩

/-- C1 amended: for two constructions with the same resulting entry name,
the registry entry already present is left unchanged — the second call
inserts nothing, so request-time lookups keep resolving to the
first-registered option set — but the second call does not return that
registry entry: both newOptionSet and the metrics factory build a fresh
option set (a distinct allocation) from the very arguments of the second call,
and only the registry discards it. -/
theorem registry_first_wins_amended :
    (∀ (env : AppInfo) (o1 o2 : List OptT) (st : TraceState),
      (newOptionSet env o2 (newOptionSet env o1 st).2).1.entryName
          = (newOptionSet env o1 st).1.entryName →
        (newOptionSet env o2 (newOptionSet env o1 st).2).2.optionsMap
            = (newOptionSet env o1 st).2.optionsMap ∧
        (newOptionSet env o2 (newOptionSet env o1 st).2).1.allocId
            ≠ (newOptionSet env o1 st).1.allocId) ∧
    (∀ (env : PromEnv) (o1 o2 : List OptM) (st : PromState),
      (MetricsPromInterceptor env o2 (MetricsPromInterceptor env o1 st).2).1.entryName
          = (MetricsPromInterceptor env o1 st).1.entryName →
        (MetricsPromInterceptor env o2 (MetricsPromInterceptor env o1 st).2).2.optionsMap
            = (MetricsPromInterceptor env o1 st).2.optionsMap ∧
        (MetricsPromInterceptor env o2 (MetricsPromInterceptor env o1 st).2).1.allocId
            ≠ (MetricsPromInterceptor env o1 st).1.allocId) := by
  constructor
  · intro env o1 o2 st hname
    have hbuild : (buildOptionSetT env o2 (newOptionSet env o1 st).2.nextAlloc).entryName
        = (newOptionSet env o1 st).1.entryName := by
      rw [← newOptionSet_fst env o2 (newOptionSet env o1 st).2]
      exact hname
    constructor
    · apply newOptionSet_unchanged
      rw [hbuild]
      exact newOptionSet_lookup_self env o1 st
    · rw [newOptionSet_fst, newOptionSet_fst, buildOptionSetT_allocId,
        buildOptionSetT_allocId, newOptionSet_snd_nextAlloc]
      omega
  · intro env o1 o2 st hname
    have hbuild : (buildOptionSetM env o2 (MetricsPromInterceptor env o1 st).2.nextAlloc).entryName
        = (MetricsPromInterceptor env o1 st).1.entryName := by
      rw [← MetricsPromInterceptor_fst_entryName env o2 (MetricsPromInterceptor env o1 st).2]
      exact hname
    constructor
    · apply MetricsPromInterceptor_unchanged
      rw [hbuild]
      exact MetricsPromInterceptor_lookup_self env o1 st
    · rw [MetricsPromInterceptor_fst_allocId, MetricsPromInterceptor_fst_allocId,
        MetricsPromInterceptor_snd_nextAlloc]
      omega

/-- C1 amended, witness: two concrete same-name constructions leave the
tracing registry unchanged. -/
theorem registry_first_wins_amended_witness :
    (newOptionSet { appName := "app", version := "v" }
        [OptT.withEntryNameAndType "a" "T2"]
        (newOptionSet { appName := "app", version := "v" }
          [OptT.withEntryNameAndType "a" "T1"] traceState0).2).2.optionsMap
      = (newOptionSet { appName := "app", version := "v" }
          [OptT.withEntryNameAndType "a" "T1"] traceState0).2.optionsMap :=
  (registry_first_wins_amended.1 { appName := "app", version := "v" }
    [OptT.withEntryNameAndType "a" "T1"] [OptT.withEntryNameAndType "a" "T2"]
    traceState0 (by decide)).1

/-- C8 counterexample: the tracing WithEntryNameAndType assigns the
supplied entry name unconditionally, so a construction with an explicitly
empty entry name keys the tracing registry by the empty string — no
fallback default is applied before the registry lookup. -/
theorem tracing_registry_keyed_by_empty_name :
    (lookupStr (newOptionSet { appName := "app", version := "v" }
        [OptT.withEntryNameAndType "" ""] traceState0).2.optionsMap "").isSome
      = true ∧
    (newOptionSet { appName := "app", version := "v" }
        [OptT.withEntryNameAndType "" ""] traceState0).1.entryName = "" := by
  refine ⟨by decide, by decide⟩

/-- C8 amended: the metrics factory never produces an empty entry name
(its name option ignores empty strings and the defensive branch restores
the default), so its registry is never keyed by the empty string; the
tracing constructor applies its default entry name only when no
WithEntryNameAndType option is supplied at all — an explicitly empty name
reaches the tracing registry unchanged. -/
theorem default_entry_name_amended :
    (∀ (env : PromEnv) (opts : List OptM) (st : PromState),
      (MetricsPromInterceptor env opts st).1.entryName ≠ "") ∧
    (∀ (env : PromEnv) (opts : List OptM) (st : PromState) (k : String),
      (∀ k2 ∈ st.optionsMap.map Prod.fst, k2 ≠ "") →
      k ∈ (MetricsPromInterceptor env opts st).2.optionsMap.map Prod.fst →
      k ≠ "") ∧
    (∀ (env : AppInfo) (opts : List OptT) (st : TraceState),
      (∀ o ∈ opts, ∀ n t, o ≠ OptT.withEntryNameAndType n t) →
      (newOptionSet env opts st).1.entryName = RpcEntryNameValue) := by
  refine ⟨?_, ?_, ?_⟩
  · intro env opts st
    rw [MetricsPromInterceptor_fst_entryName]
    exact buildOptionSetM_entryName_ne env opts st.nextAlloc
  · intro env opts st k hold hk
    revert hk
    simp only [MetricsPromInterceptor]
    split
    next => exact fun hk => hold k hk
    next =>
      intro hk
      have hk2 : k = (buildOptionSetM env opts st.nextAlloc).entryName ∨
          ∃ x, (k, x) ∈ st.optionsMap := by simpa using hk
      rcases hk2 with h | ⟨x, hx⟩
      · rw [h]
        exact buildOptionSetM_entryName_ne env opts st.nextAlloc
      · refine hold k ?_
        simp only [List.mem_map]
        exact ⟨(k, x), hx, rfl⟩
  · intro env opts st hopts
    rw [newOptionSet_fst, buildOptionSetT_entryName,
      foldl_applyOptT_entryName_of_no_nameOpt opts hopts]

/-- C8 amended, witness: a concrete metrics construction has a non-empty
entry name, and a concrete tracing construction with no name option gets
the default entry name. -/
theorem default_entry_name_amended_witness :
    (MetricsPromInterceptor
        { realm := "r", region := "rg", az := "az", domain := "d",
          localHostname := "h", appVersion := "v", appName := "app" }
        [] promState0).1.entryName ≠ "" ∧
    (newOptionSet { appName := "app", version := "v" } [] traceState0).1.entryName
      = RpcEntryNameValue :=
  ⟨default_entry_name_amended.1
      { realm := "r", region := "rg", az := "az", domain := "d",
        localHostname := "h", appVersion := "v", appName := "app" }
      [] promState0,
   default_entry_name_amended.2.2 { appName := "app", version := "v" } []
      traceState0 (fun o ho => absurd ho (List.not_mem_nil o))⟩

end RegistryTheorems

section LabelTheorems

open RkGinMetrics

/-- C4: every label-value list produced by getValues has exactly 13
elements, matching the arity of the fixed key list DefaultLabelKeys
(entryName, entryType, realm, region, az, domain, instance, appVersion,
appName, restMethod, restPath, type, resCode), and each value that cannot
be resolved — nil context, nil request, nil URL, nil writer, or no
registered option set — is the sentinel "unknown" at its position
(restMethod is index 9, restPath index 10, resCode index 12, entryName
index 0, entryType index 1) rather than being omitted. -/
theorem metrics_labels_arity_and_sentinel (env : PromEnv) (st : PromState)
    (ctx : Option GinContext) :
    (getValues env st ctx).length = 13 ∧
    (getValues env st ctx).length = DefaultLabelKeys.length ∧
    (ctx = none →
      (getValues env st ctx).getD 9 "" = unknown ∧
      (getValues env st ctx).getD 10 "" = unknown ∧
      (getValues env st ctx).getD 12 "" = unknown) ∧
    (∀ c, ctx = some c → c.request = none →
      (getValues env st ctx).getD 9 "" = unknown ∧
      (getValues env st ctx).getD 10 "" = unknown ∧
      (getValues env st ctx).getD 12 "" = unknown) ∧
    (∀ c r, ctx = some c → c.request = some r → r.url = none →
      (getValues env st ctx).getD 10 "" = unknown) ∧
    (∀ c r, ctx = some c → c.request = some r → c.writer = none →
      (getValues env st ctx).getD 12 "" = unknown) ∧
    (GetOptionSet st ctx = none →
      (getValues env st ctx).getD 0 "" = unknown ∧
      (getValues env st ctx).getD 1 "" = unknown) := by
  refine ⟨rfl, rfl, ?_, ?_, ?_, ?_, ?_⟩
  · rintro rfl
    exact ⟨rfl, rfl, rfl⟩
  · rintro c rfl hreq
    obtain ⟨creq, cwriter, ckeys, cerrs⟩ := c
    have hq : creq = none := hreq
    subst hq
    exact ⟨rfl, rfl, rfl⟩
  · rintro c r rfl hreq hurl
    obtain ⟨creq, cwriter, ckeys, cerrs⟩ := c
    have hq : creq = some r := hreq
    subst hq
    obtain ⟨ruri, rmethod, rurl⟩ := r
    have hu : rurl = none := hurl
    subst hu
    rfl
  · rintro c r rfl hreq hwriter
    obtain ⟨creq, cwriter, ckeys, cerrs⟩ := c
    have hq : creq = some r := hreq
    subst hq
    have hw : cwriter = none := hwriter
    subst hw
    rfl
  · intro hopt
    simp only [getValues, hopt]
    exact ⟨rfl, rfl⟩

/-- C4, witness at a nil context over the empty registry. -/
theorem metrics_labels_arity_and_sentinel_witness :
    (getValues
        { realm := "r", region := "rg", az := "az", domain := "d",
          localHostname := "h", appVersion := "v", appName := "app" }
        promState0 none).length = 13 ∧
    (getValues
        { realm := "r", region := "rg", az := "az", domain := "d",
          localHostname := "h", appVersion := "v", appName := "app" }
        promState0 none).getD 9 "" = unknown :=
  ⟨(metrics_labels_arity_and_sentinel
      { realm := "r", region := "rg", az := "az", domain := "d",
        localHostname := "h", appVersion := "v", appName := "app" }
      promState0 none).1,
   ((metrics_labels_arity_and_sentinel
      { realm := "r", region := "rg", az := "az", domain := "d",
        localHostname := "h", appVersion := "v", appName := "app" }
      promState0 none).2.2.1 rfl).1⟩

/-- C5: a request whose request URI starts with /rk/v1/assets, /rk/v1/tv
or /sw/ produces no latency observation, no error-counter increment and
no response-code-counter increment: the handler records the empty list of
observations, leaving every metrics set unchanged. -/
theorem internal_paths_produce_no_observations (env : PromEnv) (st : PromState)
    (ctx : GinContext) (req : GinRequest) (elapsed : Int)
    (hreq : ctx.request = some req)
    (hlead : goHasLead req.requestURI "/rk/v1/assets" = true ∨
             goHasLead req.requestURI "/rk/v1/tv" = true ∨
             goHasLead req.requestURI "/sw/" = true) :
    metricsHandlerPost env st ctx elapsed = some [] := by
  simp only [metricsHandlerPost, hreq]
  split
  next hcond =>
    exfalso
    rcases hlead with h | h | h
    · exact hcond.1 h
    · exact hcond.2.1 h
    · exact hcond.2.2 h
  next => rfl

/-- C5, witness: a concrete request to a swagger path with a registered
entry yields no observations. -/
theorem internal_paths_produce_no_observations_witness :
    metricsHandlerPost
      { realm := "r", region := "rg", az := "az", domain := "d",
        localHostname := "h", appVersion := "v", appName := "app" }
      promState0
      { request := some { requestURI := "/sw/index.html", method := "GET", url := none },
        writer := none, keys := [], errors := [] } 5 = some [] :=
  internal_paths_produce_no_observations
    { realm := "r", region := "rg", az := "az", domain := "d",
      localHostname := "h", appVersion := "v", appName := "app" }
    promState0
    { request := some { requestURI := "/sw/index.html", method := "GET", url := none },
      writer := none, keys := [], errors := [] }
    { requestURI := "/sw/index.html", method := "GET", url := none } 5 rfl
    (Or.inr (Or.inr (by decide)))

end LabelTheorems

section HandlerTheorems

open RkGinMetrics

/-- C7: for a request to a non-excluded path, after the next stage
returns the handler observes the elapsed latency exactly when the
duration instrument resolves (and skips it without failing when the
accessor is nil), increments the response-code counter exactly once when
its instrument resolves, and increments the error counter exactly when
the request context recorded at least one error and its instrument
resolves. -/
theorem non_excluded_path_observations (env : PromEnv) (st : PromState)
    (ctx : GinContext) (req : GinRequest) (elapsed : Int)
    (hreq : ctx.request = some req)
    (h1 : goHasLead req.requestURI "/rk/v1/assets" = false)
    (h2 : goHasLead req.requestURI "/rk/v1/tv" = false)
    (h3 : goHasLead req.requestURI "/sw/" = false) :
    ∃ obs, metricsHandlerPost env st ctx elapsed = some obs ∧
      countSummary obs ElapsedNano
        = (if (GetServerDurationMetrics env st (some ctx)).isSome then 1 else 0) ∧
      countCounter obs ResCode
        = (if (GetServerResCodeMetrics env st (some ctx)).isSome then 1 else 0) ∧
      countCounter obs Errors
        = (if ctx.errors.length > 0 ∧ (GetServerErrorMetrics env st (some ctx)).isSome
           then 1 else 0) ∧
      (∀ inst, GetServerDurationMetrics env st (some ctx) = some inst →
        Observation.observeSummary inst.msAllocId ElapsedNano inst.labels elapsed ∈ obs) := by
  simp only [metricsHandlerPost, hreq]
  split
  case isFalse hcond =>
    exfalso
    exact hcond ⟨by simp [h1], by simp [h2], by simp [h3]⟩
  case isTrue hcond =>
    refine ⟨_, rfl, ?_, ?_, ?_, ?_⟩ <;>
      rcases hdur : GetServerDurationMetrics env st (some ctx) with _ | inst <;>
      rcases hres : GetServerResCodeMetrics env st (some ctx) with _ | instR <;>
      rcases herrm : GetServerErrorMetrics env st (some ctx) with _ | instE <;>
      by_cases herr : ctx.errors.length > 0 <;>
      simp [hdur, hres, herrm, herr, countSummary, countCounter,
        ElapsedNano, Errors, ResCode]

end HandlerTheorems

section HandlerWitnessAndRegistryResolution

open RkGinMetrics

/-- C7, witness: a concrete non-excluded request over the empty registry
(all accessors nil) keeps the request alive with zero observations. -/
theorem non_excluded_path_observations_witness :
    ∃ obs, metricsHandlerPost
        { realm := "r", region := "rg", az := "az", domain := "d",
          localHostname := "h", appVersion := "v", appName := "app" }
        promState0
        { request := some { requestURI := "/api/v1/hello", method := "GET", url := none },
          writer := none, keys := [], errors := [] } 5 = some obs ∧
      countSummary obs ElapsedNano
        = (if (GetServerDurationMetrics
              { realm := "r", region := "rg", az := "az", domain := "d",
                localHostname := "h", appVersion := "v", appName := "app" }
              promState0
              (some { request := some { requestURI := "/api/v1/hello", method := "GET", url := none },
                      writer := none, keys := [], errors := [] })).isSome then 1 else 0) ∧
      countCounter obs ResCode
        = (if (GetServerResCodeMetrics
              { realm := "r", region := "rg", az := "az", domain := "d",
                localHostname := "h", appVersion := "v", appName := "app" }
              promState0
              (some { request := some { requestURI := "/api/v1/hello", method := "GET", url := none },
                      writer := none, keys := [], errors := [] })).isSome then 1 else 0) ∧
      countCounter obs Errors
        = (if ({ request := some { requestURI := "/api/v1/hello", method := "GET", url := none },
                 writer := none, keys := [], errors := [] } : GinContext).errors.length > 0 ∧
              (GetServerErrorMetrics
                { realm := "r", region := "rg", az := "az", domain := "d",
                  localHostname := "h", appVersion := "v", appName := "app" }
                promState0
                (some { request := some { requestURI := "/api/v1/hello", method := "GET", url := none },
                        writer := none, keys := [], errors := [] })).isSome
           then 1 else 0) ∧
      (∀ inst, GetServerDurationMetrics
            { realm := "r", region := "rg", az := "az", domain := "d",
              localHostname := "h", appVersion := "v", appName := "app" }
            promState0
            (some { request := some { requestURI := "/api/v1/hello", method := "GET", url := none },
                    writer := none, keys := [], errors := [] }) = some inst →
        Observation.observeSummary inst.msAllocId ElapsedNano inst.labels 5 ∈ obs) :=
  non_excluded_path_observations
    { realm := "r", region := "rg", az := "az", domain := "d",
      localHostname := "h", appVersion := "v", appName := "app" }
    promState0
    { request := some { requestURI := "/api/v1/hello", method := "GET", url := none },
      writer := none, keys := [], errors := [] }
    { requestURI := "/api/v1/hello", method := "GET", url := none } 5
    rfl (by decide) (by decide) (by decide)

theorem GetServerDurationMetrics_some_ms (env : PromEnv) (st : PromState)
    (ctx : Option GinContext) (inst : Instrument)
    (h : GetServerDurationMetrics env st ctx = some inst) :
    ∃ ms, GetServerMetricsSet st ctx = some ms ∧ inst.msAllocId = ms.allocId := by
  revert h
  simp only [GetServerDurationMetrics]
  split
  next ms hms =>
    split_ifs with hreg
    · intro h
      refine ⟨ms, hms, ?_⟩
      cases h
      rfl
    · intro h; cases h
  next => intro h; cases h

theorem GetServerErrorMetrics_some_ms (env : PromEnv) (st : PromState)
    (ctx : Option GinContext) (inst : Instrument)
    (h : GetServerErrorMetrics env st ctx = some inst) :
    ∃ ms, GetServerMetricsSet st ctx = some ms ∧ inst.msAllocId = ms.allocId := by
  revert h
  simp only [GetServerErrorMetrics]
  split
  next => intro h; cases h
  next c =>
    split
    next ms hms =>
      split_ifs with hreg
      · intro h
        refine ⟨ms, hms, ?_⟩
        cases h
        rfl
      · intro h; cases h
    next => intro h; cases h

theorem GetServerResCodeMetrics_some_ms (env : PromEnv) (st : PromState)
    (ctx : Option GinContext) (inst : Instrument)
    (h : GetServerResCodeMetrics env st ctx = some inst) :
    ∃ ms, GetServerMetricsSet st ctx = some ms ∧ inst.msAllocId = ms.allocId := by
  revert h
  simp only [GetServerResCodeMetrics]
  split
  next => intro h; cases h
  next c =>
    split
    next ms hms =>
      split_ifs with hreg
      · intro h
        refine ⟨ms, hms, ?_⟩
        cases h
        rfl
      · intro h; cases h
    next => intro h; cases h

/-- C10: per-request observations never use the option set captured at
construction time. First, any entry already present in the registry is
untouched by any further sequence of constructions, so all requests for
an entry record into the first-inserted metrics set. Second, every
observation the handler emits targets exactly the metrics set resolved
through the registry by the entry name stored in the request context.
Third, a request whose context resolves to no registered entry produces
no observations at all. -/
theorem observations_resolve_through_registry :
    (∀ (env : PromEnv) (optsList : List (List OptM)) (st : PromState)
       (n : String) (s : OptionSetM),
      lookupStr st.optionsMap n = some s →
      lookupStr (runConstructions env optsList st).optionsMap n = some s) ∧
    (∀ (env : PromEnv) (st : PromState) (ctx : GinContext) (elapsed : Int)
       (obs : List Observation) (o : Observation),
      metricsHandlerPost env st ctx elapsed = some obs → o ∈ obs →
      ∃ ms, GetServerMetricsSet st (some ctx) = some ms ∧ obsMsId o = ms.allocId) ∧
    (∀ (env : PromEnv) (st : PromState) (ctx : GinContext) (elapsed : Int)
       (req : GinRequest),
      ctx.request = some req →
      GetOptionSet st (some ctx) = none →
      metricsHandlerPost env st ctx elapsed = some []) := by
  refine ⟨?_, ?_, ?_⟩
  · intro env optsList
    induction optsList with
    | nil => intro st n s h; exact h
    | cons opts rest ih =>
        intro st n s h
        exact ih _ n s (MetricsPromInterceptor_preserves env opts st n s h)
  · intro env st ctx elapsed obs o hrun ho
    revert hrun
    simp only [metricsHandlerPost]
    split
    next => intro h; cases h
    next req hreq =>
      split
      next hcond =>
        intro h
        cases h
        rcases List.mem_append.mp ho with hmem | hmem
        · rcases List.mem_append.mp hmem with hmem2 | hmem2
          · revert hmem2
            rcases hdur : GetServerDurationMetrics env st (some ctx) with _ | inst
            · intro hmem2; cases hmem2
            · intro hmem2
              obtain ⟨ms, hms, hid⟩ :=
                GetServerDurationMetrics_some_ms env st (some ctx) inst hdur
              have : o = Observation.observeSummary inst.msAllocId ElapsedNano
                  inst.labels elapsed := by simpa using hmem2
              exact ⟨ms, hms, by rw [this]; exact hid⟩
          · revert hmem2
            split_ifs with herr
            · rcases herrm : GetServerErrorMetrics env st (some ctx) with _ | inst
              · intro hmem2; cases hmem2
              · intro hmem2
                obtain ⟨ms, hms, hid⟩ :=
                  GetServerErrorMetrics_some_ms env st (some ctx) inst herrm
                have : o = Observation.incCounter inst.msAllocId Errors inst.labels := by
                  simpa using hmem2
                exact ⟨ms, hms, by rw [this]; exact hid⟩
            · intro hmem2; cases hmem2
        · revert hmem
          rcases hres : GetServerResCodeMetrics env st (some ctx) with _ | inst
          · intro hmem; cases hmem
          · intro hmem
            obtain ⟨ms, hms, hid⟩ :=
              GetServerResCodeMetrics_some_ms env st (some ctx) inst hres
            have : o = Observation.incCounter inst.msAllocId ResCode inst.labels := by
              simpa using hmem
            exact ⟨ms, hms, by rw [this]; exact hid⟩
      next =>
        intro h
        cases h
        cases ho
  · intro env st ctx elapsed req hreq hnone
    have hms : GetServerMetricsSet st (some ctx) = none := by
      simp [GetServerMetricsSet, hnone]
    have hdur : GetServerDurationMetrics env st (some ctx) = none := by
      simp [GetServerDurationMetrics, hms]
    have herrm : GetServerErrorMetrics env st (some ctx) = none := by
      simp [GetServerErrorMetrics, hms]
    have hres : GetServerResCodeMetrics env st (some ctx) = none := by
      simp [GetServerResCodeMetrics, hms]
    simp only [metricsHandlerPost, hreq]
    split
    next => simp [hdur, herrm, hres]
    next => rfl

/-- C10, witness: over the empty registry a request context with no
registered entry yields no observations. -/
theorem observations_resolve_through_registry_witness :
    metricsHandlerPost
      { realm := "r", region := "rg", az := "az", domain := "d",
        localHostname := "h", appVersion := "v", appName := "app" }
      promState0
      { request := some { requestURI := "/api/v1/hello", method := "GET", url := none },
        writer := none, keys := [], errors := [] } 5 = some [] :=
  observations_resolve_through_registry.2.2
    { realm := "r", region := "rg", az := "az", domain := "d",
      localHostname := "h", appVersion := "v", appName := "app" }
    promState0
    { request := some { requestURI := "/api/v1/hello", method := "GET", url := none },
      writer := none, keys := [], errors := [] } 5
    { requestURI := "/api/v1/hello", method := "GET", url := none } rfl rfl

end HandlerWitnessAndRegistryResolution
